import Mathlib

set_option autoImplicit false

/-!
Shallow embedding of the order placement and fulfillment workflow of the
ecommerce-app backend (app/crud/orders.py, app/crud/products.py,
app/models/*.py, app/schemas/orders.py, app/utils/shipper_token_generator.py).

The SQL database is modelled as lists of rows; a raised Python exception is an
`Except.error`; `session.rollback()` in `create_order` is modelled by returning
the caller's database unchanged next to the error, and `session.commit()` by
returning the updated database.  Python `int` is `Int`.  Money columns are
declared `float` in the source models; their values are modelled with exact
`Rat` arithmetic, and the declared column types themselves are recorded in
`moneyFieldDeclaredTypes` so that representation-level statements stay about
the source.  Timestamps (`created_at`) are not modelled.
-/

namespace Ecommerce

/-- Order status enum from `app/models/orders.py` (`OrderStatus`). -/
inductive OrderStatus where
  | pending
  | confirmed
  | shipped
  | delivered
  | canceled
deriving Repr, DecidableEq

/-- Payment method enum from `app/models/orders.py` (`PaymentMethod`). -/
inductive PaymentMethod where
  | credit_card
  | debit_card
  | transfer
  | cash
deriving Repr, DecidableEq

/-- Row of the `productvariant` table (`app/models/products.py`,
`ProductVariant`), flattened together with the display fields of its base
product reached through the `prod` relationship (`Products.sku`,
`Products.product_name`), which is how `create_order_detail` and
`get_order_info` consume it. -/
structure ProductVariant where
  variant_id : Int
  sku : String
  product_name : String
  size : Option String
  color : String
  stock : Int
  price : Rat
deriving Repr, DecidableEq

/-- Row of the `order` table (`app/models/orders.py`, `Order`); the
`created_at` timestamp is not modelled. -/
structure Order where
  order_id : Int
  client_id : Option Int
  shipper_id : Option Int
  order_status : OrderStatus
  payment_method : PaymentMethod
  total_order : Rat
  shipper_token : Option Int
deriving Repr, DecidableEq

/-- Row of the `orderdetail` table (`app/models/order_detail.py`,
`OrderDetail`). -/
structure OrderDetail where
  order_id : Int
  product_id : Int
  quantity : Int
  price : Rat
deriving Repr, DecidableEq

/-- The persistent store: the tables touched by the order workflow, plus the
autoincrement counter for order primary keys. -/
structure DB where
  variants : List ProductVariant
  orders : List Order
  order_details : List OrderDetail
  next_order_id : Int
deriving Repr, DecidableEq

/-- The exceptions of `app/exceptions.py` raised by the workflow, each carrying
the key recorded by the source constructor.  `InvalidShipperTokenError` carries
the client-supplied token, which at its call site may be Python `None`. -/
inductive CrudError where
  | productVariantNotFound (variant_id : Int)
  | insufficientStock (variant_id : Int)
  | orderNotFound (order_id : Int)
  | invalidShipperToken (token : Option Int)
deriving Repr, DecidableEq

/-- Request line item (`app/schemas/orders.py`, `OrderDetailCreate`): a variant
reference and a quantity (validated `gt=0` by the schema). -/
structure OrderDetailCreate where
  product_variant_id : Int
  quantity : Int
deriving Repr, DecidableEq

/-- Order-creation request as consumed by `OrdersCrud.create_order`
(`app/schemas/orders.py`, `OrderCreate`).  The crud reads the line-item list as
`order_items`; the schema file declares the list (named `order_details` in its
revision) with no emptiness constraint.  The request carries its own
`order_status` with no default. -/
structure OrderCreate where
  client_id : Int
  shipper_id : Option Int
  order_status : OrderStatus
  payment_method : PaymentMethod
  order_items : List OrderDetailCreate
deriving Repr, DecidableEq

/-- Public line item (`app/schemas/orders.py`, `OrderDetailPublic`). -/
structure OrderDetailPublic where
  sku : String
  product_name : String
  size : Option String
  color : String
  quantity : Int
  price : Rat
deriving Repr, DecidableEq

/-- Order payload built by `create_order` and `get_order_info` (the `OrderInfo`
shape the crud constructs); `created_at` is not modelled. -/
structure OrderInfo where
  order_id : Int
  order_status : OrderStatus
  payment_method : PaymentMethod
  total_order : Rat
  shipper_id : Option Int
  order_details : List OrderDetailPublic
  shipper_token : Option Int
deriving Repr, DecidableEq

/-- Variant update request (`app/schemas/products.py`, `ProductVariantUpdate`):
every field optional; `sqlmodel_update` applies only the fields that were set. -/
structure ProductVariantUpdate where
  size : Option String
  color : Option String
  stock : Option Int
  price : Option Rat
deriving Repr, DecidableEq

/-- Decidable equality on `Except`, so that concrete runs of the workflow can
be checked by `decide`. -/
instance {ε α : Type} [DecidableEq ε] [DecidableEq α] : DecidableEq (Except ε α) := fun x y =>
  match x, y with
  | Except.ok a, Except.ok b =>
    if h : a = b then isTrue (by rw [h])
    else isFalse (fun hc => h (Except.ok.inj hc))
  | Except.error a, Except.error b =>
    if h : a = b then isTrue (by rw [h])
    else isFalse (fun hc => h (Except.error.inj hc))
  | Except.ok _, Except.error _ => isFalse (fun hc => Except.noConfusion hc)
  | Except.error _, Except.ok _ => isFalse (fun hc => Except.noConfusion hc)

/-- First variant row matching the id, as the `select ... where` of
`get_variant_info` returns it. -/
def findVariant (db : DB) (variant_id : Int) : Option ProductVariant :=
  db.variants.find? (fun v => v.variant_id == variant_id)

/-- ProductCrud.get_variant_info (app/crud/products.py lines 367-393): fetch
the variant row, raising `ProductVariantNotFoundError` when no row matches. -/
def get_variant_info (db : DB) (variant_id : Int) : Except CrudError ProductVariant :=
  match findVariant db variant_id with
  | some variant => Except.ok variant
  | none => Except.error (CrudError.productVariantNotFound variant_id)

/-- Write of the mutated stock value back to the variant row (`variant.stock -=
quantity_substracted` followed by `session.add`); rows with other ids are
untouched. -/
def setStock (variants : List ProductVariant) (variant_id : Int) (newStock : Int) :
    List ProductVariant :=
  variants.map (fun v => if v.variant_id == variant_id then { v with stock := newStock } else v)

/-- ProductCrud.substract_product (app/crud/products.py lines 585-605): fetch
the variant, raise `InsufficientStockError` when `stock < quantity_substracted`
(before any mutation), otherwise decrement the stock in the session. -/
def substract_product (db : DB) (variant_id : Int) (quantity_substracted : Int) :
    Except CrudError DB :=
  match get_variant_info db variant_id with
  | Except.error e => Except.error e
  | Except.ok variant =>
    if variant.stock < quantity_substracted then
      Except.error (CrudError.insufficientStock variant_id)
    else
      Except.ok { db with
        variants := setStock db.variants variant_id (variant.stock - quantity_substracted) }

/-- Application of the set fields of a `ProductVariantUpdate` to a variant row
(`sqlmodel_update`, which excludes unset fields). -/
def applyVariantUpdate (v : ProductVariant) (u : ProductVariantUpdate) : ProductVariant :=
  { v with
    size := match u.size with | some s => some s | none => v.size
    color := match u.color with | some c => c | none => v.color
    stock := match u.stock with | some s => s | none => v.stock
    price := match u.price with | some p => p | none => v.price }

/-- ProductCrud.update_product_variant (app/crud/products.py lines 491-518):
fetch the variant (raising `ProductVariantNotFoundError` when absent), apply
the set fields of the update and commit. -/
def update_product_variant (db : DB) (variant_id : Int) (u : ProductVariantUpdate) :
    Except CrudError DB :=
  match get_variant_info db variant_id with
  | Except.error e => Except.error e
  | Except.ok _ =>
    let updated := db.variants.map
      (fun v => if v.variant_id == variant_id then applyVariantUpdate v u else v)
    Except.ok { db with variants := updated }

/-- shipper_token_generator (app/utils/shipper_token_generator.py lines 16-23):
returns `random.randint(1000, 9999)`.  The random draw is modelled by the
explicit parameter `r`; `1000 + (r % 9000)` ranges over exactly the integers
1000..9999 that `randint(1000, 9999)` can produce. -/
def shipper_token_generator (r : Nat) : Int :=
  1000 + ((r : Int) % 9000)

/-- verify_shipper_token (app/utils/shipper_token_generator.py lines 30-43):
`given_token == db_token`.  At its call site the given token may be Python
`None`, and `None == int` is `False`, so the given token is an `Option Int`
compared against `some db_token`. -/
def verify_shipper_token (given_token : Option Int) (db_token : Int) : Bool :=
  given_token == some db_token

/-- OrdersCrud.create_order_detail (app/crud/orders.py lines 42-110): for each
requested line, fetch the variant (raising `ProductVariantNotFoundError` when
absent), snapshot its current price, deduct the sold quantity from the stock,
append the new `OrderDetail` row to the session, and build the public detail
from the variant display fields.  Any raised error propagates to the caller. -/
def create_order_detail (db : DB) (order_id : Int) (details : List OrderDetailCreate) :
    Except CrudError (DB × List OrderDetailPublic) :=
  match details with
  | [] => Except.ok (db, [])
  | detail :: rest =>
    match get_variant_info db detail.product_variant_id with
    | Except.error e => Except.error e
    | Except.ok variant =>
      match substract_product db detail.product_variant_id detail.quantity with
      | Except.error e => Except.error e
      | Except.ok db1 =>
        match create_order_detail
            { db1 with order_details := db1.order_details ++
                [{ order_id := order_id, product_id := detail.product_variant_id,
                   quantity := detail.quantity, price := variant.price }] }
            order_id rest with
        | Except.error e => Except.error e
        | Except.ok (db3, rest_public) =>
          Except.ok (db3,
            { sku := variant.sku, product_name := variant.product_name,
              size := variant.size, color := variant.color,
              quantity := detail.quantity, price := variant.price } :: rest_public)

/-- Total computation loop at the start of OrdersCrud.create_order
(app/crud/orders.py lines 138-152): `total_order` starts at 0 and accumulates
`item.quantity * unit_price` per item, where the unit price is fetched through
`get_variant_info` (which raises for a missing variant).  The source performs
this accumulation on IEEE-754 binary64 floats; the embedding idealizes each
product and partial sum as exact `Rat` arithmetic, dropping the per-operation
rounding.  The theorems proved below about `create_order` do not depend on
which arithmetic computes the total (they treat the accumulated value as an
opaque result); no exact-value property of the accumulation itself is
claimed. -/
def totalLoop (db : DB) (items : List OrderDetailCreate) (total_order : Rat) :
    Except CrudError Rat :=
  match items with
  | [] => Except.ok total_order
  | item :: rest =>
    match get_variant_info db item.product_variant_id with
    | Except.error e => Except.error e
    | Except.ok variant_info =>
      totalLoop db rest (total_order + (item.quantity : Rat) * variant_info.price)

/-- OrdersCrud.create_order (app/crud/orders.py lines 114-195): compute the
total, mint a shipper token exactly when `SHIPPER_TOKEN_BASE < total_order`,
insert the order row, create the detail rows (deducting stock), and commit.
The whole body runs inside try/except with `session.rollback()` on any raised
error, so the error outcome returns the caller's database unchanged.  The
source's local variables (`shipper_token`, `order`, the flushed session state)
are inlined here. -/
def create_order (db : DB) (client_id : Int) (order_create : OrderCreate)
    (SHIPPER_TOKEN_BASE : Int) (r : Nat) : DB × Except CrudError OrderInfo :=
  match totalLoop db order_create.order_items 0 with
  | Except.error e => (db, Except.error e)
  | Except.ok total_order =>
    match create_order_detail
        { db with
          orders := db.orders ++
            [{ order_id := db.next_order_id, client_id := some client_id,
               shipper_id := order_create.shipper_id,
               order_status := order_create.order_status,
               payment_method := order_create.payment_method,
               total_order := total_order,
               shipper_token :=
                 if (SHIPPER_TOKEN_BASE : Rat) < total_order
                 then some (shipper_token_generator r) else none }],
          next_order_id := db.next_order_id + 1 }
        db.next_order_id order_create.order_items with
    | Except.error e => (db, Except.error e)
    | Except.ok (db2, order_details) =>
      (db2, Except.ok
        { order_id := db.next_order_id, order_status := order_create.order_status,
          payment_method := order_create.payment_method, total_order := total_order,
          shipper_id := order_create.shipper_id, order_details := order_details,
          shipper_token :=
            if (SHIPPER_TOKEN_BASE : Rat) < total_order
            then some (shipper_token_generator r) else none })

/-- First order row matching the id (`session.get(Order, order_id)`). -/
def findOrder (db : DB) (order_id : Int) : Option Order :=
  db.orders.find? (fun o => o.order_id == order_id)

/-- Rebuild of the public details of an order from its stored rows, as done by
the loop of `get_order_info`: display fields come from the current variant row,
the price comes from the stored detail row. -/
def order_details_public (db : DB) (rows : List OrderDetail) :
    Except CrudError (List OrderDetailPublic) :=
  match rows with
  | [] => Except.ok []
  | detail :: rest =>
    match get_variant_info db detail.product_id with
    | Except.error e => Except.error e
    | Except.ok product_info =>
      match order_details_public db rest with
      | Except.error e => Except.error e
      | Except.ok rest_public =>
        Except.ok
          ({ sku := product_info.sku, product_name := product_info.product_name,
             size := product_info.size, color := product_info.color,
             quantity := detail.quantity, price := detail.price } :: rest_public)

/-- OrdersCrud.get_order_info (app/crud/orders.py lines 203-261): load the
order with its detail rows (raising `OrderNotFoundError` when absent), rebuild
each public detail, and return the order info. -/
def get_order_info (db : DB) (order_id : Int) : Except CrudError OrderInfo :=
  match findOrder db order_id with
  | none => Except.error (CrudError.orderNotFound order_id)
  | some order =>
    match order_details_public db (db.order_details.filter (fun d => d.order_id == order_id)) with
    | Except.error e => Except.error e
    | Except.ok details_public =>
      Except.ok
        { order_id := order.order_id, order_status := order.order_status,
          payment_method := order.payment_method, total_order := order.total_order,
          shipper_id := order.shipper_id, order_details := details_public,
          shipper_token := order.shipper_token }

/-- OrdersCrud.get_shipper_token (app/crud/orders.py lines 311-336). -/
def get_shipper_token (db : DB) (order_id : Int) : Except CrudError (Option Int) :=
  match findOrder db order_id with
  | none => Except.error (CrudError.orderNotFound order_id)
  | some order => Except.ok order.shipper_token

/-- Status write-back of a transition method (`order_to_update.order_status =
...` followed by commit). -/
def setOrderStatus (db : DB) (order_id : Int) (s : OrderStatus) : DB :=
  let updated := db.orders.map
    (fun o => if o.order_id == order_id then { o with order_status := s } else o)
  { db with orders := updated }

/-- OrdersCrud.finish_shipping (app/crud/orders.py lines 404-444): load the
order (raising `OrderNotFoundError` when absent), read its stored shipper
token, and when that token is truthy in the Python sense (`if shipper_token:`,
i.e. present and nonzero) verify the client token against it, raising
`InvalidShipperTokenError` on mismatch; otherwise set the status to delivered
and commit.  The returned value is the updated status. -/
def finish_shipping (db : DB) (order_id : Int) (token : Option Int) :
    DB × Except CrudError OrderStatus :=
  match findOrder db order_id with
  | none => (db, Except.error (CrudError.orderNotFound order_id))
  | some _ =>
    match get_shipper_token db order_id with
    | Except.error e => (db, Except.error e)
    | Except.ok shipper_token =>
      match shipper_token with
      | some t =>
        if t ≠ 0 then
          if verify_shipper_token token t then
            (setOrderStatus db order_id OrderStatus.delivered, Except.ok OrderStatus.delivered)
          else
            (db, Except.error (CrudError.invalidShipperToken token))
        else
          (setOrderStatus db order_id OrderStatus.delivered, Except.ok OrderStatus.delivered)
      | none =>
        (setOrderStatus db order_id OrderStatus.delivered, Except.ok OrderStatus.delivered)

/-- Current unit price of a variant (0 when the variant is absent, used only
under existence hypotheses). -/
def priceOf (db : DB) (variant_id : Int) : Rat :=
  match findVariant db variant_id with
  | some v => v.price
  | none => 0

/-- Current stock of a variant (0 when the variant is absent, used only under
existence hypotheses). -/
def stockOf (db : DB) (variant_id : Int) : Int :=
  match findVariant db variant_id with
  | some v => v.stock
  | none => 0

/-- Presence of a variant row for the id. -/
def variantExists (db : DB) (variant_id : Int) : Bool :=
  (findVariant db variant_id).isSome

/-- Specification-side order total (spec section 4.1): the sum over the line
items of quantity times the variant current unit price. -/
def orderTotalSpec (db : DB) (items : List OrderDetailCreate) : Rat :=
  (items.map (fun d => (d.quantity : Rat) * priceOf db d.product_variant_id)).sum

/-- Declared column types of the money fields in the source models
(`price: float` on `ProductVariant` in app/models/products.py, `price: float`
on `OrderDetail` in app/models/order_detail.py, `total_order: float` on
`Order` in app/models/orders.py). -/
def moneyFieldDeclaredTypes : List (String × String) :=
  [("ProductVariant.price", "float"),
   ("OrderDetail.price", "float"),
   ("Order.total_order", "float")]

/-- Names of the static methods of `ProductCrud` (app/crud/products.py), in
source order: the complete public surface of the inventory/catalog CRUD
class. -/
def productCrudMethods : List String :=
  ["create_product_base", "create_product_category", "create_product_variant",
   "get_base_product_by_sku", "get_full_product_by_sku", "get_products",
   "get_variant_info", "get_categories", "update_base_product",
   "update_category", "update_product_variant", "deactivate_product",
   "reactivate_product", "substract_product", "delete_base_product",
   "delete_category", "delete_product_variant"]

/-- Example variant row used to exercise the workflow on concrete inputs
(the stock-10, price-50 variant of the specification scenarios). -/
def vA : ProductVariant :=
  { variant_id := 1, sku := "SKU1", product_name := "Shirt", size := some "M",
    color := "red", stock := 10, price := 50 }

/-- Example database holding only `vA`. -/
def dbA : DB := { variants := [vA], orders := [], order_details := [], next_order_id := 1 }

/-- Example request: 3 units of variant 1. -/
def ocA : OrderCreate :=
  { client_id := 1, shipper_id := some 4, order_status := OrderStatus.pending,
    payment_method := PaymentMethod.cash,
    order_items := [{ product_variant_id := 1, quantity := 3 }] }

/-- Example request exceeding the available stock. -/
def ocShortA : OrderCreate :=
  { ocA with order_items := [{ product_variant_id := 1, quantity := 30 }] }

/-- Example request with an empty line-item list. -/
def ocEmptyA : OrderCreate := { ocA with order_items := [] }

/-- Example request carrying a non-pending status. -/
def ocConfirmedA : OrderCreate := { ocA with order_status := OrderStatus.confirmed }

/-- Order row produced by `create_order dbA 1 ocA 1000 0`. -/
def orderA : Order :=
  { order_id := 1, client_id := some 1, shipper_id := some 4,
    order_status := OrderStatus.pending, payment_method := PaymentMethod.cash,
    total_order := 150, shipper_token := none }

/-- Detail row produced by `create_order dbA 1 ocA 1000 0`. -/
def rowA : OrderDetail := { order_id := 1, product_id := 1, quantity := 3, price := 50 }

/-- Database after `create_order dbA 1 ocA 1000 0`. -/
def dbA1 : DB :=
  { variants := [{ vA with stock := 7 }], orders := [orderA],
    order_details := [rowA], next_order_id := 2 }

/-- Payload returned by `create_order dbA 1 ocA 1000 0`. -/
def infoA : OrderInfo :=
  { order_id := 1, order_status := OrderStatus.pending, payment_method := PaymentMethod.cash,
    total_order := 150, shipper_id := some 4,
    order_details := [{ sku := "SKU1", product_name := "Shirt", size := some "M",
                        color := "red", quantity := 3, price := 50 }],
    shipper_token := none }

/-- Database after `create_order dbA 1 ocA 100 5` (threshold below the total,
so the token 1000 + 5 % 9000 = 1005 is stored). -/
def dbB1 : DB :=
  { variants := [{ vA with stock := 7 }],
    orders := [{ orderA with shipper_token := some 1005 }],
    order_details := [rowA], next_order_id := 2 }

/-- Payload returned by `create_order dbA 1 ocA 100 5`. -/
def infoB : OrderInfo := { infoA with shipper_token := some 1005 }

/-- The database `dbA1` after updating variant 1 price to 60. -/
def dbA1p : DB :=
  { variants := [{ vA with stock := 7, price := 60 }], orders := [orderA],
    order_details := [rowA], next_order_id := 2 }

/-- Example shipped order holding the token 1234. -/
def o1A : Order :=
  { orderA with order_status := OrderStatus.shipped, shipper_token := some 1234 }

/-- Example shipped order holding no token. -/
def o2A : Order := { orderA with order_id := 2, order_status := OrderStatus.shipped }

/-- Example database with one tokened and one untokened shipped order. -/
def dbOrd : DB := { variants := [vA], orders := [o1A, o2A], order_details := [], next_order_id := 3 }

/-- A key-preserving row transformation commutes with `find?`. -/
theorem find?_map_key {α : Type} (f : α → α) (p : α → Bool) (hf : ∀ a, p (f a) = p a)
    (l : List α) : (l.map f).find? p = (l.find? p).map f := by
  induction l with
  | nil => rfl
  | cons a t ih =>
    by_cases hp : p a = true
    · have hfa : p (f a) = true := by rw [hf]; exact hp
      rw [List.map_cons, List.find?_cons_of_pos _ hfa, List.find?_cons_of_pos _ hp,
        Option.map_some']
    · have hfa : ¬ p (f a) = true := by rw [hf]; exact hp
      rw [List.map_cons, List.find?_cons_of_neg _ hfa, List.find?_cons_of_neg _ hp, ih]

theorem variant_id_of_findVariant {db : DB} {vid : Int} {v : ProductVariant}
    (h : findVariant db vid = some v) : v.variant_id = vid := by
  unfold findVariant at h
  have hp := List.find?_some h
  simpa using hp

theorem order_id_of_findOrder {db : DB} {oid : Int} {o : Order}
    (h : findOrder db oid = some o) : o.order_id = oid := by
  unfold findOrder at h
  have hp := List.find?_some h
  simpa using hp

theorem findVariant_setStock (db : DB) (vid : Int) (s : Int) (x : Int) :
    findVariant { db with variants := setStock db.variants vid s } x =
      (findVariant db x).map
        (fun v => if v.variant_id == vid then { v with stock := s } else v) := by
  unfold findVariant setStock
  exact find?_map_key _ _ (fun v => by by_cases h : (v.variant_id == vid) = true <;> simp [h]) _

theorem priceOf_setStock (db : DB) (vid : Int) (s : Int) (x : Int) :
    priceOf { db with variants := setStock db.variants vid s } x = priceOf db x := by
  unfold priceOf
  rw [findVariant_setStock]
  cases h : findVariant db x with
  | none => rfl
  | some v =>
    rw [Option.map_some']
    by_cases hv : (v.variant_id == vid) = true <;> simp [hv]

theorem variantExists_setStock (db : DB) (vid : Int) (s : Int) (x : Int) :
    variantExists { db with variants := setStock db.variants vid s } x = variantExists db x := by
  unfold variantExists
  rw [findVariant_setStock]
  cases h : findVariant db x <;> rfl

theorem stockOf_setStock_ne (db : DB) (vid : Int) (s : Int) (x : Int) (hx : x ≠ vid) :
    stockOf { db with variants := setStock db.variants vid s } x = stockOf db x := by
  unfold stockOf
  rw [findVariant_setStock]
  cases h : findVariant db x with
  | none => rfl
  | some v =>
    have hid : v.variant_id = x := variant_id_of_findVariant h
    simp [hid, hx]

theorem stockOf_setStock_self (db : DB) (vid : Int) (s : Int) (v : ProductVariant)
    (hv : findVariant db vid = some v) :
    stockOf { db with variants := setStock db.variants vid s } vid = s := by
  unfold stockOf
  rw [findVariant_setStock, hv, Option.map_some']
  have hid : v.variant_id = vid := variant_id_of_findVariant hv
  simp [hid]

theorem stockOf_eq_of_findVariant {db : DB} {vid : Int} {v : ProductVariant}
    (hv : findVariant db vid = some v) : stockOf db vid = v.stock := by
  unfold stockOf
  rw [hv]

theorem priceOf_eq_of_findVariant {db : DB} {vid : Int} {v : ProductVariant}
    (hv : findVariant db vid = some v) : priceOf db vid = v.price := by
  unfold priceOf
  rw [hv]

theorem substract_product_eq (db : DB) (vid : Int) (q : Int) (v : ProductVariant)
    (hv : findVariant db vid = some v) :
    substract_product db vid q =
      if v.stock < q then Except.error (CrudError.insufficientStock vid)
      else Except.ok { db with variants := setStock db.variants vid (v.stock - q) } := by
  unfold substract_product get_variant_info
  rw [hv]

theorem substract_product_ok_elim (db : DB) (vid : Int) (q : Int) (db1 : DB)
    (h : substract_product db vid q = Except.ok db1) :
    ∃ v, findVariant db vid = some v ∧ ¬ v.stock < q ∧
      db1 = { db with variants := setStock db.variants vid (v.stock - q) } := by
  unfold substract_product get_variant_info at h
  cases hv : findVariant db vid with
  | none => simp only [hv] at h; exact Except.noConfusion h
  | some v =>
    simp only [hv] at h
    by_cases hs : v.stock < q
    · rw [if_pos hs] at h; exact absurd h (by simp)
    · rw [if_neg hs] at h
      exact ⟨v, rfl, hs, (Except.ok.inj h).symm⟩

theorem substract_product_ok_fields (db : DB) (vid : Int) (q : Int) (db1 : DB)
    (h : substract_product db vid q = Except.ok db1) :
    db1.orders = db.orders ∧ db1.order_details = db.order_details ∧
    db1.next_order_id = db.next_order_id ∧
    (∀ x, priceOf db1 x = priceOf db x) ∧
    (∀ x, variantExists db1 x = variantExists db x) := by
  obtain ⟨v, hv, hs, rfl⟩ := substract_product_ok_elim db vid q db1 h
  exact ⟨rfl, rfl, rfl, fun x => priceOf_setStock db vid _ x,
    fun x => variantExists_setStock db vid _ x⟩

theorem substract_product_stock_le (db : DB) (vid : Int) (q : Int) (db1 : DB)
    (hq : 0 ≤ q) (h : substract_product db vid q = Except.ok db1) (x : Int) :
    stockOf db1 x ≤ stockOf db x := by
  obtain ⟨v, hv, hs, rfl⟩ := substract_product_ok_elim db vid q db1 h
  by_cases hx : x = vid
  · subst hx
    rw [stockOf_setStock_self db x _ v hv, stockOf_eq_of_findVariant hv]
    omega
  · rw [stockOf_setStock_ne db vid _ x hx]

theorem create_order_detail_nil (db : DB) (order_id : Int) :
    create_order_detail db order_id [] = Except.ok (db, []) := rfl

theorem create_order_detail_ok_elim :
    ∀ (details : List OrderDetailCreate) (db : DB) (order_id : Int) (db2 : DB)
      (pubs : List OrderDetailPublic),
    create_order_detail db order_id details = Except.ok (db2, pubs) →
    db2.orders = db.orders ∧ db2.next_order_id = db.next_order_id ∧
    db2.order_details = db.order_details ++ details.map (fun d =>
      { order_id := order_id, product_id := d.product_variant_id,
        quantity := d.quantity, price := priceOf db d.product_variant_id }) ∧
    (∀ x, priceOf db2 x = priceOf db x) ∧
    (∀ x, variantExists db2 x = variantExists db x) := by
  intro details
  induction details with
  | nil =>
    intro db order_id db2 pubs h
    rw [create_order_detail_nil] at h
    obtain ⟨h1, h2⟩ := Prod.mk.injEq .. ▸ Except.ok.inj h
    subst h1
    exact ⟨rfl, rfl, by simp, fun x => rfl, fun x => rfl⟩
  | cons d rest ih =>
    intro db order_id db2 pubs h
    simp only [create_order_detail] at h
    cases hv : findVariant db d.product_variant_id with
    | none => simp only [get_variant_info, hv] at h; exact Except.noConfusion h
    | some v =>
      simp only [get_variant_info, hv] at h
      cases hsub : substract_product db d.product_variant_id d.quantity with
      | error e => simp only [hsub] at h; exact Except.noConfusion h
      | ok db1 =>
        simp only [hsub] at h
        obtain ⟨ho1, hd1, hn1, hp1, he1⟩ :=
          substract_product_ok_fields db d.product_variant_id d.quantity db1 hsub
        cases hrec : create_order_detail
            { db1 with order_details := db1.order_details ++
                [{ order_id := order_id, product_id := d.product_variant_id,
                   quantity := d.quantity, price := v.price }] }
            order_id rest with
        | error e => simp only [hrec] at h; exact Except.noConfusion h
        | ok p =>
          obtain ⟨db3, rest_public⟩ := p
          simp only [hrec] at h
          obtain ⟨hdb, hpubs⟩ := Prod.mk.injEq .. ▸ Except.ok.inj h
          subst hdb
          obtain ⟨ro, rn, rd, rp, re⟩ := ih _ order_id db3 rest_public hrec
          refine ⟨?_, ?_, ?_, ?_, ?_⟩
          · rw [ro]; exact ho1
          · rw [rn]; exact hn1
          · rw [rd]
            have hprice : ∀ x,
                priceOf { db1 with order_details := db1.order_details ++
                  [{ order_id := order_id, product_id := d.product_variant_id,
                     quantity := d.quantity, price := v.price }] } x = priceOf db x :=
              fun x => hp1 x
            simp only [hprice, hd1, List.map_cons, priceOf_eq_of_findVariant hv]
            simp only [List.append_assoc, List.singleton_append]
            congr 1
            congr 1
            apply List.map_congr_left
            intro a _
            exact congrArg
              (fun p => OrderDetail.mk order_id a.product_variant_id a.quantity p)
              (hp1 a.product_variant_id)
          · intro x
            rw [rp x]
            exact hp1 x
          · intro x
            rw [re x]
            exact he1 x

theorem create_order_detail_insufficient :
    ∀ (details : List OrderDetailCreate) (db : DB) (order_id : Int),
    (∀ d ∈ details, variantExists db d.product_variant_id = true) →
    (∀ d ∈ details, 0 < d.quantity) →
    (∃ d ∈ details, stockOf db d.product_variant_id < d.quantity) →
    ∃ vid, create_order_detail db order_id details =
      Except.error (CrudError.insufficientStock vid) := by
  intro details
  induction details with
  | nil =>
    intro db order_id _ _ hshort
    obtain ⟨d, hd, _⟩ := hshort
    exact absurd hd (List.not_mem_nil d)
  | cons d rest ih =>
    intro db order_id hex hpos hshort
    have hdex : variantExists db d.product_variant_id = true :=
      hex d (List.mem_cons_self d rest)
    obtain ⟨v, hv⟩ : ∃ v, findVariant db d.product_variant_id = some v := by
      unfold variantExists at hdex
      exact Option.isSome_iff_exists.mp hdex
    by_cases hs : v.stock < d.quantity
    · refine ⟨d.product_variant_id, ?_⟩
      simp only [create_order_detail, get_variant_info, hv,
        substract_product_eq db d.product_variant_id d.quantity v hv, if_pos hs]
    · obtain ⟨db1, hsub⟩ :
          ∃ db1, substract_product db d.product_variant_id d.quantity = Except.ok db1 := by
        rw [substract_product_eq db d.product_variant_id d.quantity v hv, if_neg hs]
        exact ⟨_, rfl⟩
      have hq0 : (0:Int) ≤ d.quantity := le_of_lt (hpos d (List.mem_cons_self d rest))
      obtain ⟨ho1, hd1, hn1, hp1, he1⟩ :=
        substract_product_ok_fields db d.product_variant_id d.quantity db1 hsub
      have hle := substract_product_stock_le db d.product_variant_id d.quantity db1 hq0 hsub
      obtain ⟨vid, hvid⟩ := ih
        { db1 with order_details := db1.order_details ++
            [{ order_id := order_id, product_id := d.product_variant_id,
               quantity := d.quantity, price := v.price }] }
        order_id
        (fun d' hd' =>
          (he1 d'.product_variant_id).trans (hex d' (List.mem_cons_of_mem d hd')))
        (fun d' hd' => hpos d' (List.mem_cons_of_mem d hd'))
        (by
          obtain ⟨d0, hd0, hshort0⟩ := hshort
          rcases List.mem_cons.mp hd0 with h0 | h0
          · exfalso
            subst h0
            rw [stockOf_eq_of_findVariant hv] at hshort0
            exact hs hshort0
          · exact ⟨d0, h0, lt_of_le_of_lt (hle d0.product_variant_id) hshort0⟩)
      refine ⟨vid, ?_⟩
      simp only [create_order_detail, get_variant_info, hv, hsub, hvid]

theorem totalLoop_ok :
    ∀ (items : List OrderDetailCreate) (db : DB) (acc : Rat),
    (∀ d ∈ items, variantExists db d.product_variant_id = true) →
    totalLoop db items acc = Except.ok (acc + orderTotalSpec db items) := by
  intro items
  induction items with
  | nil =>
    intro db acc _
    simp [totalLoop, orderTotalSpec]
  | cons d rest ih =>
    intro db acc hex
    have hdex : variantExists db d.product_variant_id = true :=
      hex d (List.mem_cons_self d rest)
    obtain ⟨v, hv⟩ : ∃ v, findVariant db d.product_variant_id = some v := by
      unfold variantExists at hdex
      exact Option.isSome_iff_exists.mp hdex
    have hrest := ih db (acc + (d.quantity : Rat) * v.price)
      (fun d' hd' => hex d' (List.mem_cons_of_mem d hd'))
    simp only [totalLoop, get_variant_info, hv, hrest]
    have hspec : orderTotalSpec db (d :: rest) =
        (d.quantity : Rat) * v.price + orderTotalSpec db rest := by
      unfold orderTotalSpec
      rw [List.map_cons, List.sum_cons, priceOf_eq_of_findVariant hv]
    rw [hspec]
    ring_nf

theorem totalLoop_missing :
    ∀ (items : List OrderDetailCreate) (db : DB) (acc : Rat),
    (∃ d ∈ items, variantExists db d.product_variant_id = false) →
    ∃ vid, variantExists db vid = false ∧
      (∃ d ∈ items, d.product_variant_id = vid) ∧
      totalLoop db items acc = Except.error (CrudError.productVariantNotFound vid) := by
  intro items
  induction items with
  | nil =>
    intro db acc hmiss
    obtain ⟨d, hd, _⟩ := hmiss
    exact absurd hd (List.not_mem_nil d)
  | cons d rest ih =>
    intro db acc hmiss
    cases hv : findVariant db d.product_variant_id with
    | none =>
      refine ⟨d.product_variant_id, ?_, ⟨d, List.mem_cons_self d rest, rfl⟩, ?_⟩
      · unfold variantExists
        rw [hv]
        rfl
      · simp only [totalLoop, get_variant_info, hv]
    | some v =>
      have hdex : variantExists db d.product_variant_id = true := by
        unfold variantExists
        rw [hv]
        rfl
      obtain ⟨vid, hvid, ⟨d0, hd0, hpid⟩, herr⟩ := ih db (acc + (d.quantity : Rat) * v.price)
        (by
          obtain ⟨d0, hd0, h0⟩ := hmiss
          rcases List.mem_cons.mp hd0 with h1 | h1
          · exfalso
            subst h1
            rw [hdex] at h0
            exact Bool.noConfusion h0
          · exact ⟨d0, h1, h0⟩)
      refine ⟨vid, hvid, ⟨d0, List.mem_cons_of_mem d hd0, hpid⟩, ?_⟩
      simp only [totalLoop, get_variant_info, hv, herr]

theorem create_order_ok_elim (db : DB) (c : Int) (oc : OrderCreate) (b : Int) (r : Nat)
    (db2 : DB) (info : OrderInfo)
    (h : create_order db c oc b r = (db2, Except.ok info)) :
    ∃ total pubs,
      totalLoop db oc.order_items 0 = Except.ok total ∧
      create_order_detail
        { db with
          orders := db.orders ++
            [{ order_id := db.next_order_id, client_id := some c,
               shipper_id := oc.shipper_id, order_status := oc.order_status,
               payment_method := oc.payment_method, total_order := total,
               shipper_token :=
                 if (b : Rat) < total then some (shipper_token_generator r) else none }],
          next_order_id := db.next_order_id + 1 }
        db.next_order_id oc.order_items = Except.ok (db2, pubs) ∧
      info = { order_id := db.next_order_id, order_status := oc.order_status,
               payment_method := oc.payment_method, total_order := total,
               shipper_id := oc.shipper_id, order_details := pubs,
               shipper_token :=
                 if (b : Rat) < total then some (shipper_token_generator r) else none } := by
  unfold create_order at h
  cases htl : totalLoop db oc.order_items 0 with
  | error e =>
    rw [htl] at h
    dsimp only at h
    simp only [Prod.mk.injEq] at h
    exact absurd h.2 (by simp)
  | ok total =>
    rw [htl] at h
    dsimp only at h
    cases hcd : create_order_detail
        { db with
          orders := db.orders ++
            [{ order_id := db.next_order_id, client_id := some c,
               shipper_id := oc.shipper_id, order_status := oc.order_status,
               payment_method := oc.payment_method, total_order := total,
               shipper_token :=
                 if (b : Rat) < total then some (shipper_token_generator r) else none }],
          next_order_id := db.next_order_id + 1 }
        db.next_order_id oc.order_items with
    | error e =>
      rw [hcd] at h
      dsimp only at h
      simp only [Prod.mk.injEq] at h
      exact absurd h.2 (by simp)
    | ok p =>
      obtain ⟨db3, pubs⟩ := p
      rw [hcd] at h
      dsimp only at h
      simp only [Prod.mk.injEq] at h
      obtain ⟨h1, h2⟩ := h
      subst h1
      exact ⟨total, pubs, rfl, hcd, (Except.ok.inj h2).symm⟩

theorem applyVariantUpdate_price_only (v : ProductVariant) (p : Rat) :
    applyVariantUpdate v { size := none, color := none, stock := none, price := some p } =
      { v with price := p } := rfl

theorem update_product_variant_price_elim (db : DB) (vid : Int) (p : Rat) (db2 : DB)
    (h : update_product_variant db vid
      { size := none, color := none, stock := none, price := some p } = Except.ok db2) :
    db2.orders = db.orders ∧ db2.order_details = db.order_details ∧
    db2.next_order_id = db.next_order_id ∧
    (∀ x, findVariant db2 x = (findVariant db x).map
      (fun v => if v.variant_id == vid then { v with price := p } else v)) := by
  unfold update_product_variant at h
  cases hv : findVariant db vid with
  | none => simp only [get_variant_info, hv] at h; exact Except.noConfusion h
  | some v =>
    simp only [get_variant_info, hv] at h
    have hdb2 := (Except.ok.inj h).symm
    subst hdb2
    refine ⟨rfl, rfl, rfl, ?_⟩
    intro x
    unfold findVariant
    have hkey := find?_map_key
      (fun w => if w.variant_id == vid then applyVariantUpdate w
        { size := none, color := none, stock := none, price := some p } else w)
      (fun w => w.variant_id == x)
      (fun w => by by_cases hw : (w.variant_id == vid) = true <;> simp [hw, applyVariantUpdate])
      db.variants
    rw [hkey]
    cases hfx : db.variants.find? (fun w => w.variant_id == x) with
    | none => rfl
    | some w =>
      rw [Option.map_some', Option.map_some']
      by_cases hw : (w.variant_id == vid) = true <;> simp [hw, applyVariantUpdate_price_only]

theorem order_details_public_price_update (db db2 : DB) (vid : Int) (p : Rat)
    (hfind : ∀ x, findVariant db2 x = (findVariant db x).map
      (fun v => if v.variant_id == vid then { v with price := p } else v)) :
    ∀ rows, order_details_public db2 rows = order_details_public db rows := by
  intro rows
  induction rows with
  | nil => rfl
  | cons d rest ih =>
    simp only [order_details_public, ih]
    cases hfx : findVariant db d.product_id with
    | none =>
      have h2 : findVariant db2 d.product_id = none := by rw [hfind, hfx]; rfl
      simp only [get_variant_info, hfx, h2]
    | some v =>
      have h2 : findVariant db2 d.product_id =
          some (if v.variant_id == vid then { v with price := p } else v) := by
        rw [hfind, hfx]; rfl
      simp only [get_variant_info, hfx, h2]
      by_cases hw : (v.variant_id == vid) = true <;> simp [hw]

theorem get_order_info_price_update (db : DB) (vid : Int) (p : Rat) (db2 : DB)
    (h : update_product_variant db vid
      { size := none, color := none, stock := none, price := some p } = Except.ok db2)
    (oid : Int) : get_order_info db2 oid = get_order_info db oid := by
  obtain ⟨ho, hd, hn, hfind⟩ := update_product_variant_price_elim db vid p db2 h
  unfold get_order_info findOrder
  rw [ho, hd]
  cases hord : db.orders.find? (fun o => o.order_id == oid) with
  | none => rfl
  | some o =>
    rw [order_details_public_price_update db db2 vid p hfind]

theorem findOrder_setOrderStatus (db : DB) (oid : Int) (s : OrderStatus) :
    findOrder (setOrderStatus db oid s) oid =
      (findOrder db oid).map
        (fun o => if o.order_id == oid then { o with order_status := s } else o) := by
  unfold findOrder setOrderStatus
  exact find?_map_key _ _ (fun o => by by_cases h : (o.order_id == oid) = true <;> simp [h]) _

/-- C2: for every variant and every deduction call with positive quantity,
`substract_product` fails with `InsufficientStockError` carrying the variant id
when the current stock is smaller than the requested quantity, raising before
any mutation (no successor database is produced); otherwise it decrements that
variant's stock by exactly the quantity and leaves every other variant alone.
Starting from non-negative stock, the stock therefore stays non-negative. -/
theorem C2_substract_product_spec (db : DB) (vid q : Int) (v : ProductVariant)
    (hq : 0 < q) (hv : findVariant db vid = some v) :
    (v.stock < q →
      substract_product db vid q = Except.error (CrudError.insufficientStock vid)) ∧
    (q ≤ v.stock →
      substract_product db vid q =
        Except.ok { db with variants := setStock db.variants vid (v.stock - q) } ∧
      stockOf { db with variants := setStock db.variants vid (v.stock - q) } vid =
        stockOf db vid - q ∧
      (∀ x, x ≠ vid →
        stockOf { db with variants := setStock db.variants vid (v.stock - q) } x =
          stockOf db x) ∧
      (0 ≤ stockOf db vid →
        0 ≤ stockOf { db with variants := setStock db.variants vid (v.stock - q) } vid)) := by
  constructor
  · intro hs
    rw [substract_product_eq db vid q v hv, if_pos hs]
  · intro hs
    have hns : ¬ v.stock < q := not_lt.2 hs
    refine ⟨by rw [substract_product_eq db vid q v hv, if_neg hns], ?_, ?_, ?_⟩
    · rw [stockOf_setStock_self db vid _ v hv, stockOf_eq_of_findVariant hv]
    · exact fun x hx => stockOf_setStock_ne db vid _ x hx
    · intro h0
      rw [stockOf_setStock_self db vid _ v hv]
      rw [stockOf_eq_of_findVariant hv] at h0
      omega

/-- Witness for C2: deducting 3 units from the stock-10 variant succeeds and
leaves stock 7. -/
theorem C2_substract_product_spec_witness :
    substract_product dbA 1 3 =
      Except.ok { dbA with variants := setStock dbA.variants 1 (vA.stock - 3) } ∧
    stockOf { dbA with variants := setStock dbA.variants 1 (vA.stock - 3) } 1 = 7 := by
  have h := (C2_substract_product_spec dbA 1 3 vA (by norm_num)
    (by norm_num [findVariant, dbA, vA, List.find?])).2 (by norm_num [vA])
  refine ⟨h.1, ?_⟩
  rw [h.2.1]
  norm_num [stockOf, findVariant, dbA, vA, List.find?]

/-- C1: for every creation request whose variants all exist and whose
quantities are positive, if some line requests more than that variant's current
stock then `create_order` fails with `InsufficientStockError` and returns the
caller's database unchanged: no stock of any requested variant has changed and
no order row or order-detail row of the request exists (the rollback also
undoes the deductions of the earlier lines of the same call). -/
theorem C1_create_order_insufficient_rollback (db : DB) (c : Int) (oc : OrderCreate)
    (b : Int) (r : Nat)
    (hex : ∀ d ∈ oc.order_items, variantExists db d.product_variant_id = true)
    (hpos : ∀ d ∈ oc.order_items, 0 < d.quantity)
    (hshort : ∃ d ∈ oc.order_items, stockOf db d.product_variant_id < d.quantity) :
    ∃ vid, create_order db c oc b r =
      (db, Except.error (CrudError.insufficientStock vid)) := by
  have htl := totalLoop_ok oc.order_items db 0 hex
  obtain ⟨vid, hvid⟩ := create_order_detail_insufficient oc.order_items
    { db with
      orders := db.orders ++
        [{ order_id := db.next_order_id, client_id := some c,
           shipper_id := oc.shipper_id, order_status := oc.order_status,
           payment_method := oc.payment_method,
           total_order := 0 + orderTotalSpec db oc.order_items,
           shipper_token :=
             if (b : Rat) < 0 + orderTotalSpec db oc.order_items
             then some (shipper_token_generator r) else none }],
      next_order_id := db.next_order_id + 1 }
    db.next_order_id hex hpos hshort
  refine ⟨vid, ?_⟩
  unfold create_order
  rw [htl]
  dsimp only
  rw [hvid]

/-- Witness for C1: requesting 30 units of the stock-10 variant fails and
leaves the database exactly as it was. -/
theorem C1_create_order_insufficient_rollback_witness :
    ∃ vid, create_order dbA 1 ocShortA 1000 0 =
      (dbA, Except.error (CrudError.insufficientStock vid)) := by
  refine C1_create_order_insufficient_rollback dbA 1 ocShortA 1000 0 ?_ ?_ ?_
  · intro d hd
    norm_num [ocShortA, ocA] at hd
    subst hd
    norm_num [variantExists, findVariant, dbA, vA, List.find?]
  · intro d hd
    norm_num [ocShortA, ocA] at hd
    subst hd
    norm_num
  · refine ⟨{ product_variant_id := 1, quantity := 30 }, ?_, ?_⟩
    · norm_num [ocShortA, ocA]
    · norm_num [stockOf, findVariant, dbA, vA, List.find?]

/-- C10: a creation request with an empty line-item list is not rejected:
`create_order` commits an order whose total is 0, with no delivery token for
any non-negative threshold, and adds no order-detail row. -/
theorem C10_empty_request_accepted (db : DB) (c : Int) (oc : OrderCreate)
    (b : Int) (r : Nat) (hempty : oc.order_items = []) (hb : 0 ≤ b) :
    create_order db c oc b r =
      ({ db with
         orders := db.orders ++
           [{ order_id := db.next_order_id, client_id := some c,
              shipper_id := oc.shipper_id, order_status := oc.order_status,
              payment_method := oc.payment_method, total_order := 0,
              shipper_token := none }],
         next_order_id := db.next_order_id + 1 },
       Except.ok { order_id := db.next_order_id, order_status := oc.order_status,
                   payment_method := oc.payment_method, total_order := 0,
                   shipper_id := oc.shipper_id, order_details := [],
                   shipper_token := none }) := by
  have hlt : ¬ ((b : Rat) < 0) := not_lt.2 (by exact_mod_cast hb)
  unfold create_order
  rw [hempty]
  dsimp only [totalLoop]
  rw [if_neg hlt]
  rw [create_order_detail_nil]

/-- Witness for C10 at the concrete empty request. -/
theorem C10_empty_request_accepted_witness :
    create_order dbA 1 ocEmptyA 1000 0 =
      ({ dbA with
         orders := dbA.orders ++
           [{ order_id := dbA.next_order_id, client_id := some 1,
              shipper_id := ocEmptyA.shipper_id, order_status := ocEmptyA.order_status,
              payment_method := ocEmptyA.payment_method, total_order := 0,
              shipper_token := none }],
         next_order_id := dbA.next_order_id + 1 },
       Except.ok { order_id := dbA.next_order_id, order_status := ocEmptyA.order_status,
                   payment_method := ocEmptyA.payment_method, total_order := 0,
                   shipper_id := ocEmptyA.shipper_id, order_details := [],
                   shipper_token := none }) :=
  C10_empty_request_accepted dbA 1 ocEmptyA 1000 0 rfl (by norm_num)

/-- C3: for every successfully created order, a shipper token is present in
the returned payload and on the stored order row exactly when the configured
threshold is strictly below the order total (an order whose total equals the
threshold gets none), and any present token lies in the inclusive range
1000..9999. -/
theorem C3_token_iff_threshold (db : DB) (c : Int) (oc : OrderCreate)
    (b : Int) (r : Nat) (db1 : DB) (info : OrderInfo)
    (h : create_order db c oc b r = (db1, Except.ok info)) :
    (info.shipper_token.isSome = true ↔ (b : Rat) < info.total_order) ∧
    (∀ t, info.shipper_token = some t → 1000 ≤ t ∧ t ≤ 9999) ∧
    (∃ o ∈ db1.orders, o.order_id = info.order_id ∧
      o.shipper_token = info.shipper_token ∧ o.total_order = info.total_order) := by
  obtain ⟨total, pubs, htl, hcd, hinfo⟩ := create_order_ok_elim db c oc b r db1 info h
  obtain ⟨horders, hnext, hdetails, hprice, hexists⟩ :=
    create_order_detail_ok_elim oc.order_items _ db.next_order_id db1 pubs hcd
  subst hinfo
  refine ⟨?_, ?_, ?_⟩
  · by_cases hc : (b : Rat) < total <;> simp [hc]
  · intro t ht
    by_cases hc : (b : Rat) < total
    · simp only [hc, if_true] at ht
      have hgen : shipper_token_generator r = t := by
        simpa using ht
      subst hgen
      unfold shipper_token_generator
      have h0 : 0 ≤ (r : Int) % 9000 := Int.emod_nonneg _ (by norm_num)
      have h1 : (r : Int) % 9000 < 9000 := Int.emod_lt_of_pos _ (by norm_num)
      omega
    · simp [hc] at ht
  · refine ⟨{ order_id := db.next_order_id, client_id := some c,
              shipper_id := oc.shipper_id, order_status := oc.order_status,
              payment_method := oc.payment_method, total_order := total,
              shipper_token :=
                if (b : Rat) < total then some (shipper_token_generator r) else none },
      ?_, rfl, rfl, rfl⟩
    rw [horders]
    exact List.mem_append_right _ (by simp)

/-- Witness for C3: with threshold 100 and total 150 the token 1005 is issued
and lies within 1000..9999. -/
theorem C3_token_iff_threshold_witness :
    infoB.shipper_token.isSome = true ∧ 1000 ≤ (1005:Int) ∧ (1005:Int) ≤ 9999 := by
  have h : create_order dbA 1 ocA 100 5 = (dbB1, Except.ok infoB) := by
    norm_num [create_order, totalLoop, get_variant_info, findVariant, dbA, vA, ocA,
      create_order_detail, substract_product, setStock, shipper_token_generator,
      List.find?, dbB1, infoB, infoA, orderA, rowA]
  have hc := C3_token_iff_threshold dbA 1 ocA 100 5 dbB1 infoB h
  have hrange := hc.2.1 1005 (by norm_num [infoB, infoA])
  exact ⟨hc.1.mpr (by norm_num [infoB, infoA]), hrange.1, hrange.2⟩

/-- Counterexample for C5: the creation request carries its own status and
`create_order` stores it verbatim, so a request with status confirmed yields a
created order whose stored row and returned payload are confirmed, not
pending. -/
theorem C5_status_counterexample :
    (create_order dbA 1 ocConfirmedA 1000 0).2.map (fun i => i.order_status) =
      Except.ok OrderStatus.confirmed ∧
    (create_order dbA 1 ocConfirmedA 1000 0).1.orders.map (fun o => o.order_status) =
      [OrderStatus.confirmed] ∧
    OrderStatus.confirmed ≠ OrderStatus.pending := by
  refine ⟨?_, ?_, by decide⟩ <;>
    norm_num [create_order, totalLoop, get_variant_info, findVariant, dbA, vA,
      ocConfirmedA, ocA, create_order_detail, substract_product, setStock, List.find?,
      Except.map]

/-- C5 (amended): every order created by `create_order` is inserted with the
status carried by the creation request (`order_create.order_status`); a request
with status Pending therefore yields a Pending order, but the status is not
forced to Pending. -/
theorem C5_status_from_request (db : DB) (c : Int) (oc : OrderCreate)
    (b : Int) (r : Nat) (db1 : DB) (info : OrderInfo)
    (h : create_order db c oc b r = (db1, Except.ok info)) :
    info.order_status = oc.order_status ∧
    ∃ o ∈ db1.orders, o.order_id = info.order_id ∧ o.order_status = oc.order_status := by
  obtain ⟨total, pubs, htl, hcd, hinfo⟩ := create_order_ok_elim db c oc b r db1 info h
  obtain ⟨horders, hnext, hdetails, hprice, hexists⟩ :=
    create_order_detail_ok_elim oc.order_items _ db.next_order_id db1 pubs hcd
  subst hinfo
  refine ⟨rfl, ?_⟩
  refine ⟨{ order_id := db.next_order_id, client_id := some c,
            shipper_id := oc.shipper_id, order_status := oc.order_status,
            payment_method := oc.payment_method, total_order := total,
            shipper_token :=
              if (b : Rat) < total then some (shipper_token_generator r) else none },
    ?_, rfl, rfl⟩
  rw [horders]
  exact List.mem_append_right _ (by simp)

/-- Witness for C5 (amended): the pending request yields a pending order. -/
theorem C5_status_from_request_witness :
    infoA.order_status = ocA.order_status := by
  have h : create_order dbA 1 ocA 1000 0 = (dbA1, Except.ok infoA) := by
    norm_num [create_order, totalLoop, get_variant_info, findVariant, dbA, vA, ocA,
      create_order_detail, substract_product, setStock, shipper_token_generator,
      List.find?, dbA1, infoA, orderA, rowA]
  exact (C5_status_from_request dbA 1 ocA 1000 0 dbA1 infoA h).1

/-- C7: the detail rows written by a successful `create_order` carry the
requested variants' unit prices as they were at creation time, and reading the
order back with `get_order_info` after any later change of a variant's price
returns exactly what it returned before the change (the stored line price, not
the current variant price). -/
theorem C7_price_snapshot (db : DB) (c : Int) (oc : OrderCreate) (b : Int) (r : Nat)
    (db1 : DB) (info : OrderInfo)
    (h : create_order db c oc b r = (db1, Except.ok info)) :
    db1.order_details = db.order_details ++ oc.order_items.map (fun d =>
      { order_id := info.order_id, product_id := d.product_variant_id,
        quantity := d.quantity, price := priceOf db d.product_variant_id }) ∧
    (∀ vid p db2,
      update_product_variant db1 vid
        { size := none, color := none, stock := none, price := some p } = Except.ok db2 →
      get_order_info db2 info.order_id = get_order_info db1 info.order_id) := by
  obtain ⟨total, pubs, htl, hcd, hinfo⟩ := create_order_ok_elim db c oc b r db1 info h
  obtain ⟨horders, hnext, hdetails, hprice, hexists⟩ :=
    create_order_detail_ok_elim oc.order_items _ db.next_order_id db1 pubs hcd
  subst hinfo
  constructor
  · exact hdetails
  · intro vid p db2 hupd
    exact get_order_info_price_update db1 vid p db2 hupd _

/-- Witness for C7: after creating the order and then raising the variant
price from 50 to 60, reading the order returns the same payload as before the
price change, with the stored line price 50. -/
theorem C7_price_snapshot_witness :
    dbA1.order_details = dbA.order_details ++ ocA.order_items.map (fun d =>
      { order_id := infoA.order_id, product_id := d.product_variant_id,
        quantity := d.quantity, price := priceOf dbA d.product_variant_id }) ∧
    get_order_info dbA1p infoA.order_id = get_order_info dbA1 infoA.order_id ∧
    (get_order_info dbA1p infoA.order_id).map
      (fun i => i.order_details.map (fun d => d.price)) = Except.ok [(50:Rat)] := by
  have h : create_order dbA 1 ocA 1000 0 = (dbA1, Except.ok infoA) := by
    norm_num [create_order, totalLoop, get_variant_info, findVariant, dbA, vA, ocA,
      create_order_detail, substract_product, setStock, shipper_token_generator,
      List.find?, dbA1, infoA, orderA, rowA]
  have hupd : update_product_variant dbA1 1
      { size := none, color := none, stock := none, price := some 60 } =
      Except.ok dbA1p := by
    norm_num [update_product_variant, get_variant_info, findVariant, dbA1, dbA1p, vA,
      orderA, rowA, List.find?, applyVariantUpdate]
  have hc := C7_price_snapshot dbA 1 ocA 1000 0 dbA1 infoA h
  refine ⟨hc.1, hc.2 1 60 dbA1p hupd, ?_⟩
  rw [hc.2 1 60 dbA1p hupd]
  norm_num [get_order_info, findOrder, order_details_public, get_variant_info,
    findVariant, dbA1, infoA, orderA, rowA, vA, List.find?, List.filter, Except.map]

/-- C4: for an existing order holding a stored token (every stored token was
issued in 1000..9999, hence is nonzero and truthy), `finish_shipping` sets the
status to Delivered exactly when the supplied client token equals the stored
one; on an absent or different client token it fails with
`InvalidShipperTokenError` carrying the supplied token and leaves the database
(hence the status) unchanged.  For an existing order without a stored token it
sets the status to Delivered unconditionally. -/
theorem C4_finish_shipping_token_check (db : DB) (oid : Int) (o : Order)
    (given : Option Int) (ho : findOrder db oid = some o) :
    (∀ t, o.shipper_token = some t → 1000 ≤ t →
      ((given = some t →
         finish_shipping db oid given =
           (setOrderStatus db oid OrderStatus.delivered, Except.ok OrderStatus.delivered) ∧
         findOrder (setOrderStatus db oid OrderStatus.delivered) oid =
           some { o with order_status := OrderStatus.delivered }) ∧
       (given ≠ some t →
         finish_shipping db oid given =
           (db, Except.error (CrudError.invalidShipperToken given))))) ∧
    (o.shipper_token = none →
      finish_shipping db oid given =
        (setOrderStatus db oid OrderStatus.delivered, Except.ok OrderStatus.delivered) ∧
      findOrder (setOrderStatus db oid OrderStatus.delivered) oid =
        some { o with order_status := OrderStatus.delivered }) := by
  have hdeliv : findOrder (setOrderStatus db oid OrderStatus.delivered) oid =
      some { o with order_status := OrderStatus.delivered } := by
    rw [findOrder_setOrderStatus, ho, Option.map_some']
    have hido : o.order_id = oid := order_id_of_findOrder ho
    simp [hido]
  constructor
  · intro t ht h1000
    have ht0 : t ≠ 0 := by omega
    constructor
    · intro hg
      subst hg
      refine ⟨?_, hdeliv⟩
      unfold finish_shipping
      rw [ho]
      dsimp only
      simp only [get_shipper_token, ho]
      rw [ht]
      dsimp only
      rw [if_pos ht0]
      have hver : verify_shipper_token (some t) t = true := by
        unfold verify_shipper_token
        simp
      rw [hver]
      simp
    · intro hg
      unfold finish_shipping
      rw [ho]
      dsimp only
      simp only [get_shipper_token, ho]
      rw [ht]
      dsimp only
      rw [if_pos ht0]
      have hver : verify_shipper_token given t = false := by
        unfold verify_shipper_token
        exact beq_eq_false_iff_ne.mpr hg
      rw [hver]
      simp
  · intro ht
    refine ⟨?_, hdeliv⟩
    unfold finish_shipping
    rw [ho]
    dsimp only
    simp only [get_shipper_token, ho]
    rw [ht]

/-- Witness for C4: the stored token 1234 delivers the order, the token 9 is
rejected leaving the database unchanged, and the untokened order delivers
without any client token. -/
theorem C4_finish_shipping_token_check_witness :
    finish_shipping dbOrd 1 (some 1234) =
      (setOrderStatus dbOrd 1 OrderStatus.delivered, Except.ok OrderStatus.delivered) ∧
    finish_shipping dbOrd 1 (some 9) =
      (dbOrd, Except.error (CrudError.invalidShipperToken (some 9))) ∧
    finish_shipping dbOrd 2 none =
      (setOrderStatus dbOrd 2 OrderStatus.delivered, Except.ok OrderStatus.delivered) := by
  have ho1 : findOrder dbOrd 1 = some o1A := by decide
  have ho2 : findOrder dbOrd 2 = some o2A := by decide
  have h1 := C4_finish_shipping_token_check dbOrd 1 o1A (some 1234) ho1
  have h2 := C4_finish_shipping_token_check dbOrd 1 o1A (some 9) ho1
  have h3 := C4_finish_shipping_token_check dbOrd 2 o2A none ho2
  refine ⟨((h1.1 1234 rfl (by norm_num)).1 rfl).1, ?_, (h3.2 rfl).1⟩
  exact (h2.1 1234 rfl (by norm_num)).2 (by decide)

/-- Counterexample for C8: the variant unit price column is declared with the
Python binary floating point type `float`, not an exact decimal type, so the
claim that currency is never represented as binary floating point fails at
this very field (and likewise at the line price and the order total). -/
theorem C8_money_float_counterexample :
    ("ProductVariant.price", "float") ∈ moneyFieldDeclaredTypes ∧
    ("ProductVariant.price", "Decimal") ∉ moneyFieldDeclaredTypes ∧
    "float" ≠ "Decimal" := by decide

/-- C8 (amended): every currency value handled by the workflow (variant unit
price, line price, order total) is declared with the binary floating point
type `float` in the source models; no exact decimal/fixed-point type is used
anywhere among them. -/
theorem C8_money_fields_declared_float :
    moneyFieldDeclaredTypes.all (fun f => f.2 == "float") = true ∧
    moneyFieldDeclaredTypes.all (fun f => f.2 != "Decimal") = true := by decide

/-- Counterexample for C9: `ProductCrud`, the inventory/catalog CRUD surface,
has no `restore` method at all, so the ledger does not expose a
restore(variantId, quantity) operation. -/
theorem C9_no_restore_counterexample : "restore" ∉ productCrudMethods := by decide

/-- C9 (amended): the inventory ledger exposes stock deduction
(`substract_product`) but no restore(variantId, quantity) operation; the only
ways to raise stock are variant creation (which merges stock into an existing
variant) and the generic variant update, neither of which is a dedicated
compensating restore keyed by variant id and quantity. -/
theorem C9_deduction_without_restore :
    "substract_product" ∈ productCrudMethods ∧
    "restore" ∉ productCrudMethods ∧
    "create_product_variant" ∈ productCrudMethods ∧
    "update_product_variant" ∈ productCrudMethods := by decide

end Ecommerce
